import Mathlib

/-!
Shallow embedding of `src/lib/connectionConfig/iothubConnectionConfig.ts`
(the IotHub connection-config builder of amqp-common-js) and proofs about it.

JavaScript values flowing through the module are modelled by `JSValue`
(primitives only; the one object shape involved, the descriptor, is modelled
separately by the structure `IotHubConnectionConfig`).  Throwing is modelled
with `Except`/`Option JSError`, and the in-place mutation performed by
`validate` is modelled by returning the post-call state of the argument.

The module's collaborators (`parseConnectionString`, the two error-helper
primitives, and `EventHubConnectionConfig.createFromConnectionConfig`) live in
files of the repository that are not part of the analysed sources; they are
modelled from the specification and marked as such in their doc comments.
-/

/-- A JavaScript primitive value, as far as this module can observe one:
`undefined`, `null`, a string, an integer number, or a boolean. -/
inductive JSValue : Type where
  | undefined : JSValue
  | null : JSValue
  | str : String → JSValue
  | num : Int → JSValue
  | bool : Bool → JSValue
deriving DecidableEq, Repr

/-- JavaScript `String(v)` coercion on primitive values. -/
def jsString : JSValue → String
  | .undefined => "undefined"
  | .null => "null"
  | .str s => s
  | .num n => Int.repr n
  | .bool b => if b then "true" else "false"

/-- JavaScript truthiness of a primitive value (`NaN` is not modelled since no
number in this module can be `NaN`). -/
def truthy : JSValue → Bool
  | .undefined => false
  | .null => false
  | .str s => s != ""
  | .num n => n != 0
  | .bool b => b

/-- Modelled from the spec: the validation-helper primitive "fail if parameter
missing" (`throwTypeErrorIfParameterMissing`, defined outside the analysed
sources) regards a value as missing when it is "null, undefined, or empty". -/
def isMissing : JSValue → Bool
  | .undefined => true
  | .null => true
  | .str s => s == ""
  | .num _ => false
  | .bool _ => false

/-- JavaScript loose inequality `v != undefined`: false exactly for
`undefined` and `null`. -/
def looseNeqUndefined : JSValue → Bool
  | .undefined => false
  | .null => false
  | .str _ => true
  | .num _ => true
  | .bool _ => true

/-- Modelled from the spec: the two error kinds raised by the module's
error-helper primitives (defined outside the analysed sources), each carrying
the name of the offending parameter or field. -/
inductive JSError : Type where
  | missingParameter : String → JSError
  | typeMismatch : String → JSError
deriving DecidableEq, Repr

/-- Whether an error is a MissingParameterError (its kind, ignoring the
offending parameter's name). -/
def JSError.isMissingParameterError : JSError → Bool
  | .missingParameter _ => true
  | .typeMismatch _ => false

/-- Modelled from the spec: the result shape of the external connection-string
tokenizer for IotHub strings.  A recognized key absent from the string reads as
`undefined`, as a missing property of a JavaScript object does. -/
structure IotHubConnectionStringModel where
  HostName : JSValue
  SharedAccessKeyName : JSValue
  SharedAccessKey : JSValue
  DeviceId : JSValue
deriving DecidableEq, Repr

/-- Splits a character list on a separator character, keeping empty groups, as
JavaScript `split` does on a one-character separator: the result always has
one more group than there are separators. -/
def splitOnChar (sep : Char) : List Char → List (List Char)
  | [] => [[]]
  | c :: rest =>
    let r := splitOnChar sep rest
    if c = sep then [] :: r
    else (c :: r.headD []) :: r.tail

/-- JavaScript `s.split(sep)` for a one-character separator. -/
def splitString (sep : Char) (s : String) : List String :=
  (splitOnChar sep s.data).map List.asString

/-- Splits a character list at its first occurrence of a separator character:
the part before it, and the part after it if the separator occurs at all. -/
def splitFirst (sep : Char) : List Char → List Char × Option (List Char)
  | [] => ([], none)
  | c :: rest =>
    if c = sep then ([], some rest)
    else
      let r := splitFirst sep rest
      (c :: r.1, r.2)

/-- Splits one `Key=Value` token at its first `=`; the value keeps any later
`=` characters.  A token without `=` yields an empty value. -/
def splitPair (part : String) : String × String :=
  let r := splitFirst '=' part.data
  (List.asString r.1, List.asString (r.2.getD []))

/-- The `Key=Value` tokens of a semicolon-separated connection string. -/
def parsePairs (raw : String) : List (String × String) :=
  (splitString ';' raw).map splitPair

/-- The value bound to `key` by the token list (the last binding wins, as when
assigning properties of one JavaScript object), or `undefined` if none. -/
def lookupKey (pairs : List (String × String)) (key : String) : JSValue :=
  match (pairs.filter (fun p => p.1 == key)).getLast? with
  | some p => .str p.2
  | none => .undefined

/-- Modelled from the spec: the generic connection-string tokenizer
(`parseConnectionString`, defined outside the analysed sources) splits the raw
string into semicolon-separated `Key=Value` pairs and yields a flat mapping of
the recognized keys `HostName`, `SharedAccessKeyName`, `SharedAccessKey`,
`DeviceId` (case-sensitive) to their string values. -/
def parseConnectionString (raw : String) : IotHubConnectionStringModel :=
  let pairs := parsePairs raw
  { HostName := lookupKey pairs "HostName"
    SharedAccessKeyName := lookupKey pairs "SharedAccessKeyName"
    SharedAccessKey := lookupKey pairs "SharedAccessKey"
    DeviceId := lookupKey pairs "DeviceId" }

/-- The `IotHubConnectionConfig` descriptor of the source.  Its fields carry
`JSValue`s: although the TypeScript interface declares them as strings, the
code validates and coerces descriptors whose fields may hold any value. -/
structure IotHubConnectionConfig where
  hostName : JSValue
  host : JSValue
  connectionString : JSValue
  entityPath : JSValue
  sharedAccessKeyName : JSValue
  sharedAccessKey : JSValue
  deviceId : JSValue
deriving DecidableEq, Repr

/-- An argument passed where a descriptor object is expected: either a
primitive (non-object) JavaScript value or a descriptor object. -/
inductive ConfigArg : Type where
  | prim : JSValue → ConfigArg
  | obj : IotHubConnectionConfig → ConfigArg
deriving DecidableEq, Repr

/-- The missing-parameter test lifted to arguments: an object is never
missing. -/
def argMissing : ConfigArg → Bool
  | .prim v => isMissing v
  | .obj _ => false

/-- The `typeof x === "object"` test of the error-helper primitive "fail if
parameter type mismatch": descriptor objects pass, primitives do not (the one
primitive of object type, `null`, is always caught by the preceding
missing-parameter check). -/
def argIsObject : ConfigArg → Bool
  | .prim _ => false
  | .obj _ => true

/-- The `ConnectionConfig` record built by
`convertToEventHubConnectionConfig` before it is handed to the factory. -/
structure ConnectionConfig where
  sharedAccessKey : JSValue
  sharedAccessKeyName : JSValue
  entityPath : JSValue
  host : JSValue
  endpoint : JSValue
  connectionString : JSValue
deriving DecidableEq, Repr

/-- The related descriptor consumed by the sibling event-hub subsystem. -/
structure EventHubConnectionConfig where
  sharedAccessKey : JSValue
  sharedAccessKeyName : JSValue
  entityPath : JSValue
  host : JSValue
  endpoint : JSValue
  connectionString : JSValue
deriving DecidableEq, Repr

/-- Modelled from the spec: the related-descriptor factory
(`EventHubConnectionConfig.createFromConnectionConfig`, defined outside the
analysed sources) produces the related descriptor "by field
renaming/remapping, not independently constructed", so it preserves the six
fields of the record it is given. -/
def EventHubConnectionConfig.createFromConnectionConfig
    (config : ConnectionConfig) : EventHubConnectionConfig :=
  { sharedAccessKey := config.sharedAccessKey
    sharedAccessKeyName := config.sharedAccessKeyName
    entityPath := config.entityPath
    host := config.host
    endpoint := config.endpoint
    connectionString := config.connectionString }

namespace IotHubConnectionConfig

/-- Embedding of `IotHubConnectionConfig.create`.  Throwing is modelled with
`Except`.  The conjunct `parsedCS && parsedCS.HostName` of the source's `host`
expression reduces to the truthiness of `parsedCS.HostName`, because
`parsedCS` is always an object and hence always truthy. -/
def create (connectionString : JSValue) (path : JSValue) :
    Except JSError IotHubConnectionConfig :=
  if isMissing connectionString then
    .error (.missingParameter "connectionString")
  else
    let cs := jsString connectionString
    let parsedCS := parseConnectionString cs
    let path := if truthy path then path else .str "messages/events"
    .ok
      { connectionString := .str cs
        hostName := parsedCS.HostName
        host :=
          if truthy parsedCS.HostName then
            .str ((splitString '.' (jsString parsedCS.HostName)).headD "")
          else .str ""
        entityPath := path
        sharedAccessKeyName := parsedCS.SharedAccessKeyName
        sharedAccessKey := parsedCS.SharedAccessKey
        deviceId := parsedCS.DeviceId }

/-- The field checks and in-place coercions of
`IotHubConnectionConfig.validate` on a descriptor object, in source order.
Returns the thrown error, if any, together with the state of the object when
the call ends (normally or by throwing). -/
def validateFields (config : IotHubConnectionConfig) :
    Option JSError × IotHubConnectionConfig :=
  if isMissing config.hostName then
    (some (.missingParameter "hostName"), config)
  else
    let c1 := { config with hostName := .str (jsString config.hostName) }
    if isMissing c1.entityPath then
      (some (.missingParameter "entityPath"), c1)
    else
      let c2 := { c1 with entityPath := .str (jsString c1.entityPath) }
      if isMissing c2.sharedAccessKeyName then
        (some (.missingParameter "sharedAccessKeyName"), c2)
      else
        let c3 :=
          { c2 with sharedAccessKeyName := .str (jsString c2.sharedAccessKeyName) }
        if isMissing c3.sharedAccessKey then
          (some (.missingParameter "sharedAccessKey"), c3)
        else
          let c4 :=
            { c3 with sharedAccessKey := .str (jsString c3.sharedAccessKey) }
          let c5 :=
            if looseNeqUndefined c4.deviceId then
              { c4 with deviceId := .str (jsString c4.deviceId) }
            else c4
          (none, c5)

/-- Embedding of `IotHubConnectionConfig.validate`.  Returns the thrown error,
if any, together with the state of the argument after the call (primitives are
immutable; the source mutates descriptor objects in place). -/
def validate : ConfigArg → Option JSError × ConfigArg
  | .prim v =>
      if isMissing v then (some (.missingParameter "config"), .prim v)
      else (some (.typeMismatch "config"), .prim v)
  | .obj config =>
      let r := validateFields config
      (r.1, .obj r.2)

/-- Embedding of `IotHubConnectionConfig.convertToEventHubConnectionConfig`.
Returns the thrown error if any, the state of the argument after the call
(`validate` may have mutated it), and the returned related descriptor if the
call returned. -/
def convertToEventHubConnectionConfig (iotHubConfig : ConfigArg) :
    Option JSError × ConfigArg × Option EventHubConnectionConfig :=
  if argMissing iotHubConfig then
    (some (.missingParameter "iotHubConfig"), iotHubConfig, none)
  else if !(argIsObject iotHubConfig) then
    (some (.typeMismatch "iotHubConfig"), iotHubConfig, none)
  else
    match validate iotHubConfig with
    | (some e, after) => (some e, after, none)
    | (none, after) =>
      match after with
      | .obj cfg =>
          let config : ConnectionConfig :=
            { sharedAccessKey := cfg.sharedAccessKey
              sharedAccessKeyName := cfg.sharedAccessKeyName
              entityPath := cfg.entityPath
              host := cfg.hostName
              endpoint := .str ("sb://" ++ jsString cfg.hostName ++ "/")
              connectionString := cfg.connectionString }
          (none, .obj cfg,
            some (EventHubConnectionConfig.createFromConnectionConfig config))
      | .prim v => (none, .prim v, none)

end IotHubConnectionConfig

/-! ### Helper lemmas -/

/-- `Nat.toDigitsCore` never shortens its accumulator. -/
theorem toDigitsCore_length_le (b : Nat) :
    ∀ (f n : Nat) (ds : List Char), ds.length ≤ (Nat.toDigitsCore b f n ds).length := by
  intro f
  induction f with
  | zero => intro n ds; simp [Nat.toDigitsCore]
  | succ f ih =>
      intro n ds
      simp only [Nat.toDigitsCore]
      split
      · simp
      · exact le_trans (by simp) (ih (n / b) (Nat.digitChar (n % b) :: ds))

/-- With at least one unit of fuel, `Nat.toDigitsCore` returns a nonempty
list. -/
theorem toDigitsCore_ne_nil (b f n : Nat) (ds : List Char) :
    Nat.toDigitsCore b (f + 1) n ds ≠ [] := by
  intro h
  simp only [Nat.toDigitsCore] at h
  split at h
  · exact List.cons_ne_nil _ _ h
  · have hle := toDigitsCore_length_le b f (n / b) (Nat.digitChar (n % b) :: ds)
    rw [h] at hle
    simp at hle

/-- The decimal representation of a natural number is never the empty
string. -/
theorem natRepr_ne_empty (n : Nat) : Nat.repr n ≠ "" := by
  intro h
  have hd : Nat.toDigits 10 n = [] := by
    simpa [List.asString, Nat.repr, String.ext_iff] using h
  exact toDigitsCore_ne_nil 10 n n [] hd

/-- The decimal representation of an integer is never the empty string. -/
theorem intRepr_ne_empty (i : Int) : Int.repr i ≠ "" := by
  cases i with
  | ofNat m => exact natRepr_ne_empty m
  | negSucc m =>
      intro h
      have := congrArg String.data h
      simp [Int.repr, String.data_append] at this

/-- A value the missing-parameter check accepts has a nonempty string
coercion. -/
theorem jsString_ne_empty (v : JSValue) (h : isMissing v = false) :
    jsString v ≠ "" := by
  cases v with
  | undefined => simp [isMissing] at h
  | null => simp [isMissing] at h
  | str s => simpa [isMissing] using h
  | num n => exact intRepr_ne_empty n
  | bool b => cases b <;> simp [jsString]

/-- Coercing a non-missing value to a string yields a non-missing value. -/
theorem isMissing_coerce (v : JSValue) (h : isMissing v = false) :
    isMissing (JSValue.str (jsString v)) = false := by
  simpa [isMissing] using jsString_ne_empty v h

/-- Closed-form description of `validateFields`: the error is determined by
the first missing required field in source order, and the returned state has
exactly the fields checked before the failure coerced to strings. -/
theorem validateFields_eq (c : IotHubConnectionConfig) :
    IotHubConnectionConfig.validateFields c =
      if isMissing c.hostName then (some (.missingParameter "hostName"), c)
      else if isMissing c.entityPath then
        (some (.missingParameter "entityPath"),
          { c with hostName := .str (jsString c.hostName) })
      else if isMissing c.sharedAccessKeyName then
        (some (.missingParameter "sharedAccessKeyName"),
          { c with hostName := .str (jsString c.hostName),
                   entityPath := .str (jsString c.entityPath) })
      else if isMissing c.sharedAccessKey then
        (some (.missingParameter "sharedAccessKey"),
          { c with hostName := .str (jsString c.hostName),
                   entityPath := .str (jsString c.entityPath),
                   sharedAccessKeyName := .str (jsString c.sharedAccessKeyName) })
      else
        (none,
          { c with hostName := .str (jsString c.hostName),
                   entityPath := .str (jsString c.entityPath),
                   sharedAccessKeyName := .str (jsString c.sharedAccessKeyName),
                   sharedAccessKey := .str (jsString c.sharedAccessKey),
                   deviceId :=
                     if looseNeqUndefined c.deviceId then
                       .str (jsString c.deviceId)
                     else c.deviceId }) := by
  obtain ⟨f1, f2, f3, f4, f5, f6, f7⟩ := c
  by_cases h1 : isMissing f1 <;> by_cases h2 : isMissing f4 <;>
    by_cases h3 : isMissing f5 <;> by_cases h4 : isMissing f6 <;>
    by_cases h5 : looseNeqUndefined f7 <;>
    simp [IotHubConnectionConfig.validateFields, h1, h2, h3, h4, h5]

/-- C1: for the canonical connection string the created descriptor has
hostName "a.b.c" and host "a"; in general host is the first label of the
parsed HostName before the first dot, and the empty string whenever the
parsed HostName is absent or falsy. -/
theorem create_host_first_label :
    (∃ r : IotHubConnectionConfig,
      IotHubConnectionConfig.create
          (.str "HostName=a.b.c;SharedAccessKeyName=k;SharedAccessKey=s") .undefined
        = .ok r ∧
      r.hostName = .str "a.b.c" ∧ r.host = .str "a") ∧
    ∀ (cs path : JSValue) (r : IotHubConnectionConfig),
      IotHubConnectionConfig.create cs path = .ok r →
      r.hostName = (parseConnectionString (jsString cs)).HostName ∧
      (truthy (parseConnectionString (jsString cs)).HostName = false →
        r.host = .str "") ∧
      ∀ s : String,
        (parseConnectionString (jsString cs)).HostName = .str s → s ≠ "" →
        r.host = .str ((splitString '.' s).headD "") := by
  constructor
  · exact ⟨_, rfl, rfl, rfl⟩
  · intro cs path r h
    by_cases hm : isMissing cs = true
    · simp [IotHubConnectionConfig.create, hm] at h
    · simp [IotHubConnectionConfig.create, hm] at h
      subst h
      refine ⟨rfl, ?_, ?_⟩
      · intro htr; simp [htr]
      · intro s hs hne
        rw [hs]
        simp [truthy, jsString, hne]

def c4Result : IotHubConnectionConfig :=
  { hostName := .str "h", host := .str "h",
    connectionString := .str "HostName=h;SharedAccessKeyName=k;SharedAccessKey=s",
    entityPath := .str "messages/events", sharedAccessKeyName := .str "k",
    sharedAccessKey := .str "s", deviceId := .undefined }

/-- C4: a created descriptor's entityPath is the passed path when that is
truthy and the literal "messages/events" when the path is omitted or falsy;
in either case entityPath is not the empty string. -/
theorem create_entityPath_default (cs path : JSValue) (r : IotHubConnectionConfig)
    (h : IotHubConnectionConfig.create cs path = .ok r) :
    r.entityPath = (if truthy path = true then path else .str "messages/events") ∧
    r.entityPath ≠ .str "" := by
  by_cases hm : isMissing cs = true
  · simp [IotHubConnectionConfig.create, hm] at h
  · simp [IotHubConnectionConfig.create, hm] at h
    subst h
    by_cases hp : truthy path = true
    · refine ⟨by simp [hp], ?_⟩
      simp only [hp, if_true]
      intro he
      rw [he] at hp
      simp [truthy] at hp
    · refine ⟨by simp [hp], by simp [hp]⟩

/-- Witness for C4 at a concrete call with no path argument. -/
theorem create_entityPath_default_witness :
    c4Result.entityPath
        = (if truthy JSValue.undefined = true then JSValue.undefined
           else .str "messages/events") ∧
    c4Result.entityPath ≠ .str "" :=
  create_entityPath_default
    (.str "HostName=h;SharedAccessKeyName=k;SharedAccessKey=s") .undefined
    c4Result rfl

/-- C6: create throws MissingParameterError exactly when the connection
string is null, undefined, or empty; every other input yields a descriptor. -/
theorem create_throws_iff_connectionString_missing (cs path : JSValue) :
    (isMissing cs = true →
      IotHubConnectionConfig.create cs path
        = .error (.missingParameter "connectionString")) ∧
    (isMissing cs = false →
      ∃ r : IotHubConnectionConfig,
        IotHubConnectionConfig.create cs path = .ok r) := by
  constructor
  · intro hm; simp [IotHubConnectionConfig.create, hm]
  · intro hm
    refine ⟨{ connectionString := .str (jsString cs),
              hostName := (parseConnectionString (jsString cs)).HostName,
              host :=
                if truthy (parseConnectionString (jsString cs)).HostName then
                  .str ((splitString '.'
                    (jsString (parseConnectionString (jsString cs)).HostName)).headD "")
                else .str "",
              entityPath := if truthy path then path else .str "messages/events",
              sharedAccessKeyName :=
                (parseConnectionString (jsString cs)).SharedAccessKeyName,
              sharedAccessKey := (parseConnectionString (jsString cs)).SharedAccessKey,
              deviceId := (parseConnectionString (jsString cs)).DeviceId }, ?_⟩
    simp [IotHubConnectionConfig.create, hm]

/-- Witness for C6: create(undefined) throws, and a parseable string without
a HostName key still yields a descriptor. -/
theorem create_throws_iff_connectionString_missing_witness :
    IotHubConnectionConfig.create .undefined .undefined
        = .error (.missingParameter "connectionString") ∧
    (IotHubConnectionConfig.create (.str "Foo=bar") .undefined).isOk = true := by
  refine ⟨(create_throws_iff_connectionString_missing .undefined .undefined).1 rfl, ?_⟩
  obtain ⟨r, hr⟩ :=
    (create_throws_iff_connectionString_missing (.str "Foo=bar") .undefined).2 rfl
  simp [hr, Except.isOk, Except.toBool]

/-- The all-fields-undefined descriptor, the image of the JavaScript object
literal with no properties. -/
def emptyDescriptor : IotHubConnectionConfig :=
  { hostName := .undefined, host := .undefined, connectionString := .undefined,
    entityPath := .undefined, sharedAccessKeyName := .undefined,
    sharedAccessKey := .undefined, deviceId := .undefined }

/-- Stated from the spec's words: the error for the first missing required
field in the fixed check order hostName, entityPath, sharedAccessKeyName,
sharedAccessKey; no error when none is missing. -/
def firstMissingError (c : IotHubConnectionConfig) : Option JSError :=
  if isMissing c.hostName then some (.missingParameter "hostName")
  else if isMissing c.entityPath then some (.missingParameter "entityPath")
  else if isMissing c.sharedAccessKeyName then
    some (.missingParameter "sharedAccessKeyName")
  else if isMissing c.sharedAccessKey then
    some (.missingParameter "sharedAccessKey")
  else none

/-- C5: validate reports the first missing required field in the fixed order
hostName, entityPath, sharedAccessKeyName, sharedAccessKey; the empty object
fails for hostName; a present but non-object argument fails with
TypeMismatchError. -/
theorem validate_first_missing_field_wins :
    (∀ c : IotHubConnectionConfig,
      (IotHubConnectionConfig.validate (.obj c)).1 = firstMissingError c) ∧
    (IotHubConnectionConfig.validate (.obj emptyDescriptor)).1
      = some (.missingParameter "hostName") ∧
    ∀ v : JSValue, isMissing v = false →
      (IotHubConnectionConfig.validate (.prim v)).1
        = some (.typeMismatch "config") := by
  refine ⟨?_, by decide, ?_⟩
  · intro c
    by_cases h1 : isMissing c.hostName <;> by_cases h2 : isMissing c.entityPath <;>
      by_cases h3 : isMissing c.sharedAccessKeyName <;>
      by_cases h4 : isMissing c.sharedAccessKey <;>
      simp [IotHubConnectionConfig.validate, validateFields_eq, firstMissingError,
        h1, h2, h3, h4]
  · intro v hm
    simp [IotHubConnectionConfig.validate, hm]

/-- Witness for C5 at the empty object and at a number argument. -/
theorem validate_first_missing_field_wins_witness :
    (IotHubConnectionConfig.validate (.obj emptyDescriptor)).1
        = firstMissingError emptyDescriptor ∧
    (IotHubConnectionConfig.validate (.prim (.num 3))).1
        = some (.typeMismatch "config") :=
  ⟨validate_first_missing_field_wins.1 emptyDescriptor,
   validate_first_missing_field_wins.2.2 (.num 3) rfl⟩

/-- C7: when the four required fields are present and non-empty, validate
succeeds and coerces each of them (and a present deviceId) to its string
form in place, leaving an absent deviceId untouched. -/
theorem validate_coerces_fields (c : IotHubConnectionConfig)
    (h1 : isMissing c.hostName = false) (h2 : isMissing c.entityPath = false)
    (h3 : isMissing c.sharedAccessKeyName = false)
    (h4 : isMissing c.sharedAccessKey = false) :
    IotHubConnectionConfig.validate (.obj c) =
      (none, .obj { c with
        hostName := .str (jsString c.hostName),
        entityPath := .str (jsString c.entityPath),
        sharedAccessKeyName := .str (jsString c.sharedAccessKeyName),
        sharedAccessKey := .str (jsString c.sharedAccessKey),
        deviceId :=
          if looseNeqUndefined c.deviceId = true then .str (jsString c.deviceId)
          else c.deviceId }) := by
  simp [IotHubConnectionConfig.validate, validateFields_eq, h1, h2, h3, h4]

/-- Witness for C7: a descriptor with numeric hostName 1 validates and its
hostName becomes the string "1". -/
theorem validate_coerces_fields_witness :
    IotHubConnectionConfig.validate
        (.obj { hostName := .num 1, host := .undefined,
                connectionString := .undefined, entityPath := .str "p",
                sharedAccessKeyName := .str "n", sharedAccessKey := .str "k",
                deviceId := .undefined })
      = (none,
         .obj { hostName := .str "1", host := .undefined,
                connectionString := .undefined, entityPath := .str "p",
                sharedAccessKeyName := .str "n", sharedAccessKey := .str "k",
                deviceId := .undefined }) :=
  validate_coerces_fields
    { hostName := .num 1, host := .undefined, connectionString := .undefined,
      entityPath := .str "p", sharedAccessKeyName := .str "n",
      sharedAccessKey := .str "k", deviceId := .undefined } rfl rfl rfl rfl

/-- C10: validate leaves host and connectionString unchanged on every call,
successful or failing, and never replaces the descriptor object itself. -/
theorem validate_frame :
    (∀ c : IotHubConnectionConfig, ∃ c' : IotHubConnectionConfig,
      (IotHubConnectionConfig.validate (.obj c)).2 = .obj c' ∧
      c'.host = c.host ∧ c'.connectionString = c.connectionString) ∧
    ∀ v : JSValue, (IotHubConnectionConfig.validate (.prim v)).2 = .prim v := by
  constructor
  · intro c
    refine ⟨(IotHubConnectionConfig.validateFields c).2, rfl, ?_, ?_⟩ <;>
    · obtain ⟨f1, f2, f3, f4, f5, f6, f7⟩ := c
      by_cases h1 : isMissing f1 <;> by_cases h2 : isMissing f4 <;>
        by_cases h3 : isMissing f5 <;> by_cases h4 : isMissing f6 <;>
        by_cases h5 : looseNeqUndefined f7 <;>
        simp [validateFields_eq, h1, h2, h3, h4, h5]
  · intro v
    by_cases hm : isMissing v <;> simp [IotHubConnectionConfig.validate, hm]

/-- A descriptor whose hostName is the number 1 and whose entityPath is
absent: validation fails on entityPath after having already coerced
hostName. -/
def c2Input : IotHubConnectionConfig :=
  { hostName := .num 1, host := .str "", connectionString := .str "cs",
    entityPath := .undefined, sharedAccessKeyName := .str "n",
    sharedAccessKey := .str "k", deviceId := .undefined }

/-- C2 counterexample: validate throws on c2Input, yet the passed-in
descriptor is not left unchanged — hostName has already been coerced from
the number 1 to the string "1" when the entityPath check aborts the call. -/
theorem validate_not_all_or_nothing :
    ((IotHubConnectionConfig.validate (.obj c2Input)).1).isSome = true ∧
    (IotHubConnectionConfig.validate (.obj c2Input)).2 ≠ .obj c2Input := by
  decide

/-- C2 amended: when validate throws, the operation aborts at the first
failing field; that field and all later ones are unchanged, while the
required fields checked earlier have already been coerced to strings in
place.  In particular the descriptor is unchanged exactly when the very
first check (hostName) is the one that fails. -/
theorem validate_error_state (c : IotHubConnectionConfig) (e : JSError)
    (h : (IotHubConnectionConfig.validate (.obj c)).1 = some e) :
    (e = .missingParameter "hostName" →
      (IotHubConnectionConfig.validate (.obj c)).2 = .obj c) ∧
    (e = .missingParameter "entityPath" →
      (IotHubConnectionConfig.validate (.obj c)).2
        = .obj { c with hostName := .str (jsString c.hostName) }) ∧
    (e = .missingParameter "sharedAccessKeyName" →
      (IotHubConnectionConfig.validate (.obj c)).2
        = .obj { c with hostName := .str (jsString c.hostName),
                        entityPath := .str (jsString c.entityPath) }) ∧
    (e = .missingParameter "sharedAccessKey" →
      (IotHubConnectionConfig.validate (.obj c)).2
        = .obj { c with hostName := .str (jsString c.hostName),
                        entityPath := .str (jsString c.entityPath),
                        sharedAccessKeyName :=
                          .str (jsString c.sharedAccessKeyName) }) := by
  by_cases h1 : isMissing c.hostName <;> by_cases h2 : isMissing c.entityPath <;>
    by_cases h3 : isMissing c.sharedAccessKeyName <;>
    by_cases h4 : isMissing c.sharedAccessKey <;>
    simp [IotHubConnectionConfig.validate, validateFields_eq,
      h1, h2, h3, h4] at h ⊢ <;>
    subst h <;> simp

/-- Witness for C2's amended claim at c2Input: the failing field is
entityPath and hostName has been coerced. -/
theorem validate_error_state_witness :
    (IotHubConnectionConfig.validate (.obj c2Input)).2
      = .obj { c2Input with hostName := .str (jsString c2Input.hostName) } :=
  (validate_error_state c2Input (.missingParameter "entityPath")
    (by decide)).2.1 rfl

/-- String coercion of a value that is already a string is the identity. -/
theorem jsString_str (s : String) : jsString (.str s) = s := rfl

/-- A string value is loosely unequal to undefined. -/
theorem looseNeqUndefined_str (s : String) :
    looseNeqUndefined (.str s) = true := rfl

/-- C8: validate is idempotent — after a successful (coercing) call, a second
call on the resulting state succeeds and changes nothing. -/
theorem validate_idempotent (a r : ConfigArg)
    (h : IotHubConnectionConfig.validate a = (none, r)) :
    IotHubConnectionConfig.validate r = (none, r) := by
  cases a with
  | prim v =>
      by_cases hm : isMissing v <;>
        simp [IotHubConnectionConfig.validate, hm] at h
  | obj c =>
      obtain ⟨f1, f2, f3, f4, f5, f6, f7⟩ := c
      by_cases h1 : isMissing f1
      · simp [IotHubConnectionConfig.validate, validateFields_eq, h1] at h
      by_cases h2 : isMissing f4
      · simp [IotHubConnectionConfig.validate, validateFields_eq, h1, h2] at h
      by_cases h3 : isMissing f5
      · simp [IotHubConnectionConfig.validate, validateFields_eq, h1, h2, h3] at h
      by_cases h4 : isMissing f6
      · simp [IotHubConnectionConfig.validate, validateFields_eq,
          h1, h2, h3, h4] at h
      rw [Bool.not_eq_true] at h1 h2 h3 h4
      by_cases h5 : looseNeqUndefined f7 <;>
        simp [IotHubConnectionConfig.validate, validateFields_eq,
          h1, h2, h3, h4, h5] at h <;>
        subst h <;>
        simp [IotHubConnectionConfig.validate, validateFields_eq, jsString_str,
          looseNeqUndefined_str, h5,
          isMissing_coerce f1 h1, isMissing_coerce f4 h2,
          isMissing_coerce f5 h3, isMissing_coerce f6 h4]

/-- Witness for C8: a second validate call on the state produced by a
successful first call is a no-op. -/
theorem validate_idempotent_witness :
    IotHubConnectionConfig.validate
        (.obj { hostName := .str "1", host := .str "", connectionString := .str "cs",
                entityPath := .str "p", sharedAccessKeyName := .str "n",
                sharedAccessKey := .str "k", deviceId := .undefined })
      = (none,
         .obj { hostName := .str "1", host := .str "", connectionString := .str "cs",
                entityPath := .str "p", sharedAccessKeyName := .str "n",
                sharedAccessKey := .str "k", deviceId := .undefined }) :=
  validate_idempotent
    (.obj { hostName := .num 1, host := .str "", connectionString := .str "cs",
            entityPath := .str "p", sharedAccessKeyName := .str "n",
            sharedAccessKey := .str "k", deviceId := .undefined })
    (.obj { hostName := .str "1", host := .str "", connectionString := .str "cs",
            entityPath := .str "p", sharedAccessKeyName := .str "n",
            sharedAccessKey := .str "k", deviceId := .undefined })
    (by decide)

/-- C3: converting a validated descriptor with string fields yields a related
descriptor whose endpoint is "sb://" ++ hostName ++ "/", whose host is the
full hostName (not re-split), and whose remaining fields are copied
verbatim. -/
theorem convert_builds_related_descriptor (c : IotHubConnectionConfig)
    (hn en kn ks : String)
    (e1 : c.hostName = .str hn) (ne1 : hn ≠ "")
    (e2 : c.entityPath = .str en) (ne2 : en ≠ "")
    (e3 : c.sharedAccessKeyName = .str kn) (ne3 : kn ≠ "")
    (e4 : c.sharedAccessKey = .str ks) (ne4 : ks ≠ "") :
    (IotHubConnectionConfig.convertToEventHubConnectionConfig (.obj c)).1
        = none ∧
    (IotHubConnectionConfig.convertToEventHubConnectionConfig (.obj c)).2.2
        = some
          { sharedAccessKey := c.sharedAccessKey,
            sharedAccessKeyName := c.sharedAccessKeyName,
            entityPath := c.entityPath,
            host := .str hn,
            endpoint := .str ("sb://" ++ hn ++ "/"),
            connectionString := c.connectionString } := by
  have m1 : isMissing (JSValue.str hn) = false := by simpa [isMissing] using ne1
  have m2 : isMissing (JSValue.str en) = false := by simpa [isMissing] using ne2
  have m3 : isMissing (JSValue.str kn) = false := by simpa [isMissing] using ne3
  have m4 : isMissing (JSValue.str ks) = false := by simpa [isMissing] using ne4
  constructor <;>
    simp [IotHubConnectionConfig.convertToEventHubConnectionConfig, argMissing,
      argIsObject, IotHubConnectionConfig.validate, validateFields_eq,
      m1, m2, m3, m4, e1, e2, e3, e4, jsString_str,
      EventHubConnectionConfig.createFromConnectionConfig]

/-- Witness for C3: hostName "foo.bar" gives endpoint "sb://foo.bar/" and
host "foo.bar" (the full hostName, not its first label). -/
theorem convert_builds_related_descriptor_witness :
    (IotHubConnectionConfig.convertToEventHubConnectionConfig
        (.obj { hostName := .str "foo.bar", host := .str "foo",
                connectionString := .str "c", entityPath := .str "p",
                sharedAccessKeyName := .str "n", sharedAccessKey := .str "k",
                deviceId := .undefined })).2.2
      = some { sharedAccessKey := .str "k", sharedAccessKeyName := .str "n",
               entityPath := .str "p", host := .str "foo.bar",
               endpoint := .str "sb://foo.bar/", connectionString := .str "c" } :=
  (convert_builds_related_descriptor
    { hostName := .str "foo.bar", host := .str "foo", connectionString := .str "c",
      entityPath := .str "p", sharedAccessKeyName := .str "n",
      sharedAccessKey := .str "k", deviceId := .undefined }
    "foo.bar" "p" "n" "k" rfl (by decide) rfl (by decide) rfl (by decide) rfl
    (by decide)).2

/-- The error thrown by the conversion on a descriptor object is exactly the
error thrown by validate on it. -/
theorem convert_obj_fst (c : IotHubConnectionConfig) :
    (IotHubConnectionConfig.convertToEventHubConnectionConfig (.obj c)).1
      = (IotHubConnectionConfig.validate (.obj c)).1 := by
  rcases h : IotHubConnectionConfig.validateFields c with ⟨oe, c'⟩
  cases oe <;>
    simp [IotHubConnectionConfig.convertToEventHubConnectionConfig,
      IotHubConnectionConfig.validate, argMissing, argIsObject, h]

/-- C9: conversion runs validate first and propagates its errors — on any
input on which validate throws, the conversion throws an error of the same
kind, and on descriptor objects the very same error; a null or undefined
argument fails the conversion with MissingParameterError. -/
theorem convert_propagates_validate_errors (a : ConfigArg) :
    (∀ e : JSError, (IotHubConnectionConfig.validate a).1 = some e →
      ∃ e' : JSError,
        (IotHubConnectionConfig.convertToEventHubConnectionConfig a).1
            = some e' ∧
        e'.isMissingParameterError = e.isMissingParameterError) ∧
    (∀ c : IotHubConnectionConfig, a = .obj c →
      (IotHubConnectionConfig.convertToEventHubConnectionConfig a).1
        = (IotHubConnectionConfig.validate a).1) ∧
    ((a = .prim .undefined ∨ a = .prim .null) →
      (IotHubConnectionConfig.convertToEventHubConnectionConfig a).1
        = some (.missingParameter "iotHubConfig")) := by
  cases a with
  | prim v =>
      refine ⟨?_, ?_, ?_⟩
      · intro e he
        by_cases hm : isMissing v
        · refine ⟨.missingParameter "iotHubConfig", ?_, ?_⟩
          · simp [IotHubConnectionConfig.convertToEventHubConnectionConfig,
              argMissing, hm]
          · simp [IotHubConnectionConfig.validate, hm] at he
            subst he
            rfl
        · refine ⟨.typeMismatch "iotHubConfig", ?_, ?_⟩
          · simp [IotHubConnectionConfig.convertToEventHubConnectionConfig,
              argMissing, argIsObject, hm]
          · simp [IotHubConnectionConfig.validate, hm] at he
            subst he
            rfl
      · intro c hc; cases hc
      · rintro (h | h) <;> cases h <;> rfl
  | obj c =>
      refine ⟨?_, ?_, ?_⟩
      · intro e he
        exact ⟨e, by rw [convert_obj_fst]; exact he, rfl⟩
      · intro c' hc
        exact convert_obj_fst c
      · rintro (h | h) <;> cases h

/-- Witness for C9: the conversion fails with MissingParameterError on an
undefined argument, and agrees with validate's error on a descriptor
object. -/
theorem convert_propagates_validate_errors_witness :
    (IotHubConnectionConfig.convertToEventHubConnectionConfig
        (.prim .undefined)).1 = some (.missingParameter "iotHubConfig") ∧
    (IotHubConnectionConfig.convertToEventHubConnectionConfig
        (.obj { hostName := .undefined, host := .undefined,
                connectionString := .undefined, entityPath := .undefined,
                sharedAccessKeyName := .undefined, sharedAccessKey := .undefined,
                deviceId := .undefined })).1
      = (IotHubConnectionConfig.validate
          (.obj { hostName := .undefined, host := .undefined,
                  connectionString := .undefined, entityPath := .undefined,
                  sharedAccessKeyName := .undefined, sharedAccessKey := .undefined,
                  deviceId := .undefined })).1 :=
  ⟨(convert_propagates_validate_errors (.prim .undefined)).2.2 (Or.inl rfl),
   (convert_propagates_validate_errors
      (.obj { hostName := .undefined, host := .undefined,
              connectionString := .undefined, entityPath := .undefined,
              sharedAccessKeyName := .undefined, sharedAccessKey := .undefined,
              deviceId := .undefined })).2.1 _ rfl⟩

/-- The descriptor created from the canonical connection string of the
spec's first testable property. -/
def c1Result : IotHubConnectionConfig :=
  { hostName := .str "a.b.c", host := .str "a",
    connectionString := .str "HostName=a.b.c;SharedAccessKeyName=k;SharedAccessKey=s",
    entityPath := .str "messages/events", sharedAccessKeyName := .str "k",
    sharedAccessKey := .str "s", deviceId := .undefined }

/-- Witness for C1's general part at the canonical connection string. -/
theorem create_host_first_label_witness :
    c1Result.host = .str ((splitString '.' "a.b.c").headD "") :=
  ((create_host_first_label.2
      (.str "HostName=a.b.c;SharedAccessKeyName=k;SharedAccessKey=s")
      .undefined c1Result rfl).2.2 "a.b.c" rfl (by decide))
